import Mathlib

/-!
Verification of the File-Data-Exporter pipeline
(`sitetracker_file_exporter.py` / `merge_sitetracker_docids_to_files.py`).

The embedding models pandas DataFrames as ordered association-list rows with
`Option String` cells (`none` models a missing value / NaN), and the two
network loops (`bulk2_wait_job`, `bulk2_fetch_results`) as recursion over the
list of successive server responses.
-/

namespace FileDataExporter

/-- One cell of a DataFrame: `none` models pandas NaN / pd.NA. -/
abbrev Cell := Option String

/-- Python string formatting of a cell: formatting a missing value (float NaN)
with an f-string yields the text "nan". -/
def pyStrCell : Cell → String
  | some s => s
  | none => "nan"

/-- Python `str.lower()` (ASCII case folding, character by character). -/
def pyLower (s : String) : String :=
  ⟨s.data.map Char.toLower⟩

/-- Python `str.strip()`: remove leading and trailing whitespace. -/
def pyStrip (s : String) : String :=
  ⟨((s.data.dropWhile Char.isWhitespace).reverse.dropWhile Char.isWhitespace).reverse⟩

/-- One DataFrame row: an ordered association list from column label to cell. -/
structure Row where
  cells : List (String × Cell)
deriving DecidableEq

/-- Value of row `r` at column `c`: `none` when the row has no such label,
`some cell` otherwise (first matching label wins). -/
def Row.get (r : Row) (c : String) : Option Cell :=
  r.cells.lookup c

/-- Replace the first binding of label `c` by `v`, or append `(c, v)` when the
label is absent; models pandas column assignment at row level. -/
def setCells : List (String × Cell) → String → Cell → List (String × Cell)
  | [], c, v => [(c, v)]
  | (c0, v0) :: rest, c, v =>
      if c0 = c then (c, v) :: rest else (c0, v0) :: setCells rest c v

/-- Row with column `c` set to `v`. -/
def Row.set (r : Row) (c : String) (v : Cell) : Row :=
  ⟨setCells r.cells c v⟩

/-- A pandas DataFrame: ordered column labels and a list of rows. -/
structure DataFrame where
  cols : List String
  rows : List Row
deriving DecidableEq

/-- The empty DataFrame `pd.DataFrame()`. -/
def DataFrame.empty : DataFrame :=
  ⟨[], []⟩

/-- Column assignment `df[c] = df.apply(f)`: every row gets column `c` set to
`f row`, and `c` is appended to the labels when new. -/
def DataFrame.setCol (df : DataFrame) (c : String) (f : Row → Cell) : DataFrame :=
  { cols := if c ∈ df.cols then df.cols else df.cols ++ [c],
    rows := df.rows.map (fun r => r.set c (f r)) }

/-- Cell values of one column, NaN for rows lacking the label. -/
def DataFrame.col (df : DataFrame) (c : String) : List Cell :=
  df.rows.map (fun r => (r.get c).join)

/-- Errors surfaced by the Python code. `systemExit` is `raise SystemExit(msg)`
(a clean non-zero process exit), the others are ordinary exceptions. -/
inductive PyError where
  | systemExit (message : String)
  | keyError (key : String)
  | runtimeError (message : String)
deriving DecidableEq

/-- Whether the error is an ordinary exception rather than a clean exit. -/
def PyError.isException : PyError → Bool
  | .systemExit _ => false
  | .keyError _ => true
  | .runtimeError _ => true

/-- Process exit code produced by the error: `SystemExit("msg")` exits with
status 1, and an uncaught exception also terminates with status 1. -/
def PyError.exitCode : PyError → Nat
  | .systemExit _ => 1
  | .keyError _ => 1
  | .runtimeError _ => 1

/-- Column-level embedding of `read_sitetracker_csv` (the row contents are
produced verbatim by `pd.read_csv`): validates that `docid_col` is present,
then applies the optional column narrowing of the source. -/
def read_sitetracker_csv (header : List String) (docid_col : String)
    (selected_columns : Option (List String)) : Except PyError (List String) :=
  if docid_col ∉ header then
    Except.error (PyError.systemExit ("Column not found in SiteTracker CSV: " ++ docid_col))
  else
    match selected_columns with
    | none => Except.ok header
    | some sel =>
      if sel = [] then Except.ok header
      else
        let keep_cols :=
          (sel.filter (fun c => !(c == "") && decide (pyStrip c ∈ header))).map pyStrip
        Except.ok (if docid_col ∈ keep_cols then keep_cols else keep_cols ++ [docid_col])

/-- Embedding of `extract_docids`: drop missing values, coerce to string,
keep strings of positive length, return the unique set. Raises `KeyError`
when the column is absent, as `dataframe[docid_col]` would. -/
def extract_docids (dataframe : DataFrame) (docid_col : String) :
    Except PyError (Finset String) :=
  if docid_col ∈ dataframe.cols then
    Except.ok ((((dataframe.col docid_col).filterMap id).filter
      (fun s => 0 < s.length)).toFinset)
  else
    Except.error (PyError.keyError docid_col)

/-- Embedding of `add_file_urls`: sets the `FileUrl` column to the Lightning
viewer URL built from the instance URL and the row's `ContentDocumentId`. -/
def add_file_urls (dataframe : DataFrame) (instance_url : String) :
    Except PyError DataFrame :=
  if "ContentDocumentId" ∈ dataframe.cols then
    Except.ok (dataframe.setCol "FileUrl" (fun r =>
      some (instance_url ++ "/lightning/r/ContentDocument/" ++
        pyStrCell ((r.get "ContentDocumentId").join) ++ "/view")))
  else
    Except.error (PyError.keyError "ContentDocumentId")

/-- Suffix rule of `DataFrame.merge` with `suffixes = ("", "_File")`: a
right-hand column overlapping a left-hand label gets the `_File` suffix. -/
def renameRight (leftCols : List String) (c : String) : String :=
  if c ∈ leftCols then c ++ "_File" else c

/-- An all-NaN right-hand side for unmatched left rows of a left join. -/
def nullRightCells (leftCols rightCols : List String) : List (String × Cell) :=
  rightCols.map (fun c => (renameRight leftCols c, (none : Cell)))

/-- Embedding of `left.merge(right, how="left", left_on=leftOn,
right_on=rightOn, suffixes=("", "_File"))`: every left row is paired with each
matching right row (key cells compared as values, NaN matching NaN as pandas
does), or with an all-NaN right side when no right row matches. -/
def mergeRowGroup (leftCols rightCols : List String) (l : Row) (ms : List Row) :
    List Row :=
  if ms.isEmpty then
    [⟨l.cells ++ nullRightCells leftCols rightCols⟩]
  else
    ms.map (fun r => ⟨l.cells ++ r.cells.map (fun p => (renameRight leftCols p.1, p.2))⟩)

/-- The left join built group by group from `mergeRowGroup`. -/
def pdMergeLeft (left right : DataFrame) (leftOn rightOn : String) : DataFrame :=
  { cols := left.cols ++ right.cols.map (renameRight left.cols),
    rows := (left.rows.map (fun l => mergeRowGroup left.cols right.cols l
      (right.rows.filter (fun r => r.get rightOn == l.get leftOn)))).flatten }

/-- Embedding of `merge_site_tracker_and_files`: left join on the identifier
columns, then, when an `Id` column is present, a `SiteTrackerAttachmentUrl`
column built from it (`pd.NA` when the `Id` cell is missing). -/
def merge_site_tracker_and_files (site_tracker_df files_df : DataFrame)
    (docid_col instance_url : String) : DataFrame :=
  let merged := pdMergeLeft site_tracker_df files_df docid_col "ContentDocumentId"
  if "Id" ∈ merged.cols then
    merged.setCol "SiteTrackerAttachmentUrl" (fun r =>
      match (r.get "Id").join with
      | some attachment_id =>
          some (instance_url ++ "/lightning/r/sitetracker__Attachment__c/" ++
            attachment_id ++ "/view")
      | none => none)
  else
    merged

/-- A job-status payload, as the JSON object returned by the status endpoint. -/
abbrev Info := List (String × String)

/-- The `state` field of a status payload (`info.get("state")`). -/
def Info.state (info : Info) : Option String :=
  info.lookup "state"

/-- Whether a state string is one of the three terminal states of the
Bulk API 2.0 job lifecycle. -/
def isTerminalState (state : Option String) : Bool :=
  state == some "JobComplete" || state == some "Failed" || state == some "Aborted"

/-- Outcome of the polling loop of `bulk2_wait_job`: a normal return with the
status payload, a raised `RuntimeError` embedding the state and the full
payload, or still polling (the modelled response list ran out). -/
inductive WaitOutcome where
  | done (info : Info)
  | raised (state : Option String) (info : Info)
  | polling
deriving DecidableEq

/-- Embedding of `bulk2_wait_job` over the successive poll responses: returns
the total time slept (3 units after every non-terminal poll) together with the
outcome. -/
def bulk2_wait_job (responses : List Info) : Nat × WaitOutcome :=
  match responses with
  | [] => (0, WaitOutcome.polling)
  | info :: rest =>
    let state := Info.state info
    if isTerminalState state then
      if state ≠ some "JobComplete" then (0, WaitOutcome.raised state info)
      else (0, WaitOutcome.done info)
    else
      let p := bulk2_wait_job rest
      (3 + p.1, p.2)

/-- One HTTP response of the results endpoint: the CSV body and the
`Sforce-Locator` header (`none` when the header is absent). -/
structure BulkResponse where
  text : String
  sforceLocator : Option String
deriving DecidableEq

/-- The `locator` query parameter sent with a request given the current
locator variable: included exactly when the Python value is truthy. -/
def paramLocator (locator : Option String) : Option String :=
  match locator with
  | some s => if s == "" then none else some s
  | none => none

/-- Loop-continuation test of `bulk2_fetch_results`: the loop breaks when the
header is absent, empty, or case-insensitively "null". -/
def locatorContinue (locator : Option String) : Bool :=
  match locator with
  | none => false
  | some s => !(s == "" || pyLower s == "null")

/-- Pagination loop of `bulk2_fetch_results`: walks the successive responses,
returning the `locator` parameter of every issued request (including the one
that the next response would answer) and the parsed non-empty pages in arrival
order. `parse` stands for `pd.read_csv` on a response body. -/
def fetchPages (parse : String → DataFrame) (locator : Option String) :
    List BulkResponse → List (Option String) × List DataFrame
  | [] => ([paramLocator locator], [])
  | r :: rest =>
    let pageFrames := if pyStrip r.text == "" then [] else [parse r.text]
    if locatorContinue r.sforceLocator then
      let next := fetchPages parse r.sforceLocator rest
      (paramLocator locator :: next.1, pageFrames ++ next.2)
    else
      ([paramLocator locator], pageFrames)

/-- Number of leading responses whose `Sforce-Locator` header keeps the
pagination loop going. -/
def leadCont : List BulkResponse → Nat
  | [] => 0
  | r :: rest => if locatorContinue r.sforceLocator then leadCont rest + 1 else 0

/-- Column-label union preserving first occurrence, as `pd.concat` builds it. -/
def unionCols (cols : List String) : List String :=
  cols.foldl (fun acc c => if c ∈ acc then acc else acc ++ [c]) []

/-- Embedding of `pd.concat(frames, ignore_index=True)`: rows concatenated in
order, labels the first-occurrence union. -/
def DataFrame.concatFrames (frames : List DataFrame) : DataFrame :=
  { cols := unionCols (frames.map DataFrame.cols).flatten,
    rows := (frames.map DataFrame.rows).flatten }

/-- Embedding of `bulk2_fetch_results`: all fetched pages concatenated, or the
empty DataFrame when no page held data. -/
def bulk2_fetch_results (parse : String → DataFrame)
    (responses : List BulkResponse) : DataFrame :=
  let frames := (fetchPages parse none responses).2
  if frames.isEmpty then DataFrame.empty else DataFrame.concatFrames frames

/-- Membership test of `isin(docid_set)` on a cell: NaN is never a member. -/
def cellIsin (c : Cell) (s : Finset String) : Bool :=
  match c with
  | some v => decide (v ∈ s)
  | none => false

/-- Embedding of `df[df[c].isin(s)]`: keep the rows whose cell at `c` is a
present value belonging to `s`. -/
def DataFrame.filterIsin (df : DataFrame) (c : String) (s : Finset String) : DataFrame :=
  { cols := df.cols,
    rows := df.rows.filter (fun r => cellIsin ((r.get c).join) s) }

/-- Keep-first deduplication by key cell, threading the list of already-seen
key cells (two NaN keys count as duplicates, as pandas does). -/
def dropDupRowsAux (key : String) (seen : List (Option Cell)) : List Row → List Row
  | [] => []
  | r :: rest =>
      if r.get key ∈ seen then dropDupRowsAux key seen rest
      else r :: dropDupRowsAux key (r.get key :: seen) rest

/-- Embedding of `drop_duplicates(subset=[key])` at row level: keep the first
row of each key value, preserving order. -/
def dropDupRows (key : String) (l : List Row) : List Row :=
  dropDupRowsAux key [] l

/-- Embedding of `drop_duplicates(subset=[key])`. -/
def DataFrame.dropDuplicatesBy (df : DataFrame) (key : String) : DataFrame :=
  { cols := df.cols, rows := dropDupRows key df.rows }

/-- Embedding of the filter-and-dedupe step of `main`:
`cv[cv["ContentDocumentId"].isin(docid_set)].drop_duplicates(subset=["ContentDocumentId"])`. -/
def filter_and_dedupe_files (content_versions : DataFrame)
    (docid_set : Finset String) : DataFrame :=
  (content_versions.filterIsin "ContentDocumentId" docid_set).dropDuplicatesBy
    "ContentDocumentId"

/-! Helper lemmas about the embedding. -/

theorem lookup_setCells_self (l : List (String × Cell)) (c : String) (v : Cell) :
    List.lookup c (setCells l c v) = some v := by
  induction l with
  | nil => simp [setCells]
  | cons p rest ih =>
    obtain ⟨c0, v0⟩ := p
    by_cases h : c0 = c
    · simp [setCells, h, List.lookup_cons]
    · have hb : (c == c0) = false := by simp [Ne.symm h]
      simp [setCells, h, List.lookup_cons, hb, ih]

theorem lookup_setCells_ne (l : List (String × Cell)) (c c' : String) (v : Cell)
    (h : c' ≠ c) : List.lookup c' (setCells l c v) = List.lookup c' l := by
  induction l with
  | nil => simp [setCells, h]
  | cons p rest ih =>
    obtain ⟨c0, v0⟩ := p
    by_cases h0 : c0 = c
    · subst h0
      have hb : (c' == c0) = false := by simp [h]
      simp [setCells, List.lookup_cons, hb]
    · simp [setCells, h0, List.lookup_cons, ih]

theorem Row.get_set_self (r : Row) (c : String) (v : Cell) :
    (r.set c v).get c = some v :=
  lookup_setCells_self r.cells c v

theorem Row.get_set_ne (r : Row) (c c' : String) (v : Cell) (h : c' ≠ c) :
    (r.set c v).get c' = r.get c' :=
  lookup_setCells_ne r.cells c c' v h

theorem string_length_pos_iff (s : String) : 0 < s.length ↔ s ≠ "" := by
  rw [Nat.pos_iff_ne_zero]
  constructor
  · intro h hs
    exact h (by simp [hs])
  · intro h hlen
    apply h
    have hdata : s.data.length = 0 := by
      simpa [String.length_data] using hlen
    exact String.ext (by simpa using List.length_eq_zero.mp hdata)

/-! Claim theorems. -/

/-- C4: for every dataframe whose header has the identifier column,
`extract_docids` returns exactly the set of distinct non-empty string values of
that column after dropping missing values, and the result is unaffected by row
order (hence by duplicate, blank, or null entries). -/
theorem extract_docids_distinct_nonempty (df : DataFrame) (docid_col : String)
    (hcol : docid_col ∈ df.cols) :
    ∃ ids : Finset String, extract_docids df docid_col = Except.ok ids ∧
      (∀ s : String, s ∈ ids ↔ ((∃ r ∈ df.rows, r.get docid_col = some (some s)) ∧ s ≠ "")) ∧
      (∀ df' : DataFrame, docid_col ∈ df'.cols → df.rows.Perm df'.rows →
        extract_docids df' docid_col = extract_docids df docid_col) := by
  refine ⟨(((df.col docid_col).filterMap id).filter (fun s => 0 < s.length)).toFinset,
    by simp [extract_docids, hcol], ?_, ?_⟩
  · intro s
    simp only [List.mem_toFinset, List.mem_filter, List.mem_filterMap, DataFrame.col,
      List.mem_map, id_eq, decide_eq_true_eq, string_length_pos_iff]
    constructor
    · rintro ⟨⟨a, ⟨r, hr, rfl⟩, hcell⟩, hne⟩
      exact ⟨⟨r, hr, Option.join_eq_some.mp hcell⟩, hne⟩
    · rintro ⟨⟨r, hr, hget⟩, hne⟩
      exact ⟨⟨(r.get docid_col).join, ⟨r, hr, rfl⟩, by rw [hget]; rfl⟩, hne⟩
  · intro df' hcol' hperm
    have hp : ((df'.col docid_col).filterMap id).filter (fun s => 0 < s.length) |>.Perm
        (((df.col docid_col).filterMap id).filter (fun s => 0 < s.length)) :=
      ((hperm.symm.map _).filterMap _).filter _
    have hfin : (((df'.col docid_col).filterMap id).filter (fun s => 0 < s.length)).toFinset
        = (((df.col docid_col).filterMap id).filter (fun s => 0 < s.length)).toFinset := by
      apply Finset.ext
      intro a
      simp only [List.mem_toFinset]
      exact hp.mem_iff
    simp [extract_docids, hcol, hcol', hfin]

/-- Witness for C4 at the example of the claim: column values
["123", "", NaN, "123", "456"] yield exactly the identifier set. -/
theorem extract_docids_distinct_nonempty_witness :
    "DocId" ∈ (⟨["DocId"], [⟨[("DocId", some "123")]⟩, ⟨[("DocId", some "")]⟩,
        ⟨[("DocId", none)]⟩, ⟨[("DocId", some "123")]⟩,
        ⟨[("DocId", some "456")]⟩]⟩ : DataFrame).cols ∧
    (∃ ids : Finset String,
      extract_docids (⟨["DocId"], [⟨[("DocId", some "123")]⟩, ⟨[("DocId", some "")]⟩,
        ⟨[("DocId", none)]⟩, ⟨[("DocId", some "123")]⟩,
        ⟨[("DocId", some "456")]⟩]⟩ : DataFrame) "DocId" = Except.ok ids ∧
      (∀ s : String, s ∈ ids ↔
        ((∃ r ∈ (⟨["DocId"], [⟨[("DocId", some "123")]⟩, ⟨[("DocId", some "")]⟩,
          ⟨[("DocId", none)]⟩, ⟨[("DocId", some "123")]⟩,
          ⟨[("DocId", some "456")]⟩]⟩ : DataFrame).rows,
            r.get "DocId" = some (some s)) ∧ s ≠ "")) ∧
      (∀ df' : DataFrame, "DocId" ∈ df'.cols →
        (⟨["DocId"], [⟨[("DocId", some "123")]⟩, ⟨[("DocId", some "")]⟩,
          ⟨[("DocId", none)]⟩, ⟨[("DocId", some "123")]⟩,
          ⟨[("DocId", some "456")]⟩]⟩ : DataFrame).rows.Perm df'.rows →
        extract_docids df' "DocId" =
          extract_docids (⟨["DocId"], [⟨[("DocId", some "123")]⟩, ⟨[("DocId", some "")]⟩,
            ⟨[("DocId", none)]⟩, ⟨[("DocId", some "123")]⟩,
            ⟨[("DocId", some "456")]⟩]⟩ : DataFrame) "DocId")) :=
  ⟨by decide, extract_docids_distinct_nonempty _ "DocId" (by decide)⟩

/-- C5: when the identifier column is present and a non-empty column subset is
requested, `read_sitetracker_csv` keeps exactly the requested columns that
exist in the header, force-including the identifier column, which comes last
when it was not itself requested. -/
theorem read_sitetracker_csv_column_narrowing (header : List String) (docid_col : String)
    (sel : List String) (hdoc : docid_col ∈ header) (hne : sel ≠ []) :
    ∃ result : List String,
      read_sitetracker_csv header docid_col (some sel) = Except.ok result ∧
      docid_col ∈ result ∧
      (∀ c, c ∈ result ↔ (c = docid_col ∨ ∃ s ∈ sel, s ≠ "" ∧ pyStrip s = c ∧ c ∈ header)) ∧
      ((¬ ∃ s ∈ sel, s ≠ "" ∧ pyStrip s = docid_col) → result.getLast? = some docid_col) := by
  have hkeep : ∀ c, (c ∈ (sel.filter
        (fun c => !(c == "") && decide (pyStrip c ∈ header))).map pyStrip ↔
      ∃ s ∈ sel, s ≠ "" ∧ pyStrip s = c ∧ c ∈ header) := by
    intro c
    simp only [List.mem_map, List.mem_filter, Bool.and_eq_true, Bool.not_eq_true',
      beq_eq_false_iff_ne, decide_eq_true_eq]
    constructor
    · rintro ⟨s, ⟨hs, hne0, hmem⟩, rfl⟩
      exact ⟨s, hs, hne0, rfl, hmem⟩
    · rintro ⟨s, hs, hne0, rfl, hmem⟩
      exact ⟨s, ⟨hs, hne0, hmem⟩, rfl⟩
  have heq : read_sitetracker_csv header docid_col (some sel) =
      Except.ok (if docid_col ∈ (sel.filter
          (fun c => !(c == "") && decide (pyStrip c ∈ header))).map pyStrip
        then (sel.filter (fun c => !(c == "") && decide (pyStrip c ∈ header))).map pyStrip
        else ((sel.filter (fun c => !(c == "") && decide (pyStrip c ∈ header))).map pyStrip)
          ++ [docid_col]) := by
    simp [read_sitetracker_csv, hdoc, hne]
  by_cases hk : docid_col ∈ (sel.filter
      (fun c => !(c == "") && decide (pyStrip c ∈ header))).map pyStrip
  · refine ⟨_, by rw [heq, if_pos hk], hk, ?_, ?_⟩
    · intro c
      rw [hkeep]
      constructor
      · exact fun h => Or.inr h
      · rintro (h | h)
        · rw [h]
          exact (hkeep docid_col).mp hk
        · exact h
    · intro hno
      exfalso
      obtain ⟨s, hs, hne0, htrim, _⟩ := (hkeep docid_col).mp hk
      exact hno ⟨s, hs, hne0, htrim⟩
  · refine ⟨_, by rw [heq, if_neg hk], List.mem_append_right _ (List.mem_singleton.mpr rfl),
      ?_, fun _ => List.getLast?_concat _⟩
    intro c
    rw [List.mem_append, hkeep, List.mem_singleton]
    constructor
    · rintro (h | rfl)
      · exact Or.inr h
      · exact Or.inl rfl
    · rintro (rfl | h)
      · exact Or.inr rfl
      · exact Or.inl h

/-- Witness for C5 at the example of the claim: requesting ["Name"] with
identifier column "DocId" yields the columns ["Name", "DocId"], DocId last. -/
theorem read_sitetracker_csv_column_narrowing_witness :
    "DocId" ∈ ["Name", "DocId", "Other"] ∧ (["Name"] : List String) ≠ [] ∧
    (∃ result : List String,
      read_sitetracker_csv ["Name", "DocId", "Other"] "DocId" (some ["Name"]) =
        Except.ok result ∧
      "DocId" ∈ result ∧
      (∀ c, c ∈ result ↔
        (c = "DocId" ∨ ∃ s ∈ ["Name"], s ≠ "" ∧ pyStrip s = c ∧ c ∈ ["Name", "DocId", "Other"])) ∧
      ((¬ ∃ s ∈ ["Name"], s ≠ "" ∧ pyStrip s = "DocId") → result.getLast? = some "DocId")) :=
  ⟨by decide, by decide,
    read_sitetracker_csv_column_narrowing ["Name", "DocId", "Other"] "DocId" ["Name"]
      (by decide) (by decide)⟩

/-- C9: when the identifier column is absent from the header,
`read_sitetracker_csv` fails with `SystemExit`, a clean non-zero process exit
rather than an ordinary exception. -/
theorem read_sitetracker_csv_missing_column (header : List String) (docid_col : String)
    (sel : Option (List String)) (hmiss : docid_col ∉ header) :
    read_sitetracker_csv header docid_col sel =
      Except.error (PyError.systemExit ("Column not found in SiteTracker CSV: " ++ docid_col)) ∧
    PyError.isException
      (PyError.systemExit ("Column not found in SiteTracker CSV: " ++ docid_col)) = false ∧
    0 < PyError.exitCode
      (PyError.systemExit ("Column not found in SiteTracker CSV: " ++ docid_col)) := by
  refine ⟨?_, rfl, Nat.one_pos⟩
  simp [read_sitetracker_csv, hmiss]

/-- Witness for C9: a header lacking "DocId" makes the loader exit. -/
theorem read_sitetracker_csv_missing_column_witness :
    "DocId" ∉ ["Name", "Other"] ∧
    (read_sitetracker_csv ["Name", "Other"] "DocId" none =
      Except.error (PyError.systemExit ("Column not found in SiteTracker CSV: " ++ "DocId")) ∧
    PyError.isException
      (PyError.systemExit ("Column not found in SiteTracker CSV: " ++ "DocId")) = false ∧
    0 < PyError.exitCode
      (PyError.systemExit ("Column not found in SiteTracker CSV: " ++ "DocId"))) :=
  ⟨by decide, read_sitetracker_csv_missing_column ["Name", "Other"] "DocId" none (by decide)⟩

/-- C10: `add_file_urls` sets `FileUrl` on every row to exactly the pure
string template applied to the base URL and the row's identifier. -/
theorem add_file_urls_pure_template (df : DataFrame) (instance_url : String)
    (hcol : "ContentDocumentId" ∈ df.cols) :
    ∃ out : DataFrame, add_file_urls df instance_url = Except.ok out ∧
      out.rows.length = df.rows.length ∧
      "FileUrl" ∈ out.cols ∧
      (∀ (k : Nat) (r : Row), df.rows[k]? = some r → ∀ docid : String,
        r.get "ContentDocumentId" = some (some docid) →
        ∃ r', out.rows[k]? = some r' ∧
          r'.get "FileUrl" =
            some (some (instance_url ++ "/lightning/r/ContentDocument/" ++ docid ++ "/view"))) := by
  refine ⟨df.setCol "FileUrl" (fun r =>
      some (instance_url ++ "/lightning/r/ContentDocument/" ++
        pyStrCell ((r.get "ContentDocumentId").join) ++ "/view")),
    by simp [add_file_urls, hcol], by simp [DataFrame.setCol], ?_, ?_⟩
  · by_cases h : "FileUrl" ∈ df.cols <;> simp [DataFrame.setCol, h]
  · intro k r hk docid hget
    refine ⟨r.set "FileUrl" (some (instance_url ++ "/lightning/r/ContentDocument/" ++
        pyStrCell ((r.get "ContentDocumentId").join) ++ "/view")), ?_, ?_⟩
    · simp [DataFrame.setCol, List.getElem?_map, hk]
    · rw [Row.get_set_self, hget]
      rfl

/-- Witness for C10 at the example of the claim: base http://example.com and
identifier DOC1 produce exactly the expected viewer URL. -/
theorem add_file_urls_pure_template_witness :
    "ContentDocumentId" ∈
      (⟨["ContentDocumentId"], [⟨[("ContentDocumentId", some "DOC1")]⟩]⟩ : DataFrame).cols ∧
    (∃ out : DataFrame,
      add_file_urls (⟨["ContentDocumentId"], [⟨[("ContentDocumentId", some "DOC1")]⟩]⟩ :
          DataFrame) "http://example.com" = Except.ok out ∧
      out.rows.length =
        (⟨["ContentDocumentId"], [⟨[("ContentDocumentId", some "DOC1")]⟩]⟩ :
          DataFrame).rows.length ∧
      "FileUrl" ∈ out.cols ∧
      (∀ (k : Nat) (r : Row), (⟨["ContentDocumentId"], [⟨[("ContentDocumentId", some "DOC1")]⟩]⟩ :
          DataFrame).rows[k]? = some r → ∀ docid : String,
        r.get "ContentDocumentId" = some (some docid) →
        ∃ r', out.rows[k]? = some r' ∧
          r'.get "FileUrl" =
            some (some ("http://example.com" ++ "/lightning/r/ContentDocument/" ++
              docid ++ "/view")))) :=
  ⟨by decide, add_file_urls_pure_template _ "http://example.com" (by decide)⟩

/-- C3: `bulk2_wait_job` polls again after a fixed 3-unit sleep on every
non-terminal state with no retry bound, returns the status payload only for
the single success state `JobComplete`, and for the failure states (`Failed`,
`Aborted`) raises an error embedding that state's full status payload. -/
theorem bulk2_wait_job_terminal_states (responses : List Info) :
    ((∀ i ∈ responses, isTerminalState (Info.state i) = false) →
        bulk2_wait_job responses = (3 * responses.length, WaitOutcome.polling)) ∧
    (∀ (k : Nat) (i : Info), responses[k]? = some i →
        (∀ i' ∈ responses.take k, isTerminalState (Info.state i') = false) →
        isTerminalState (Info.state i) = true →
        ((Info.state i = some "JobComplete" →
            bulk2_wait_job responses = (3 * k, WaitOutcome.done i)) ∧
         (Info.state i ≠ some "JobComplete" →
            bulk2_wait_job responses = (3 * k, WaitOutcome.raised (Info.state i) i)))) ∧
    (∀ (t : Nat) (i : Info), bulk2_wait_job responses = (t, WaitOutcome.done i) →
        Info.state i = some "JobComplete") := by
  induction responses with
  | nil =>
    refine ⟨fun _ => by simp [bulk2_wait_job], ?_, ?_⟩
    · intro k i hk
      simp at hk
    · intro t i h
      simp [bulk2_wait_job] at h
  | cons a rest ih =>
    by_cases ht : isTerminalState (Info.state a) = true
    · by_cases hj : Info.state a = some "JobComplete"
      · have hrun : bulk2_wait_job (a :: rest) = (0, WaitOutcome.done a) := by
          simp [bulk2_wait_job, ht, hj, isTerminalState]
        refine ⟨?_, ?_, ?_⟩
        · intro h
          exact absurd (h a (List.mem_cons_self a rest)) (by simp [ht])
        · intro k i hk htake hterm
          match k with
          | 0 =>
            simp only [List.getElem?_cons_zero, Option.some.injEq] at hk
            subst hk
            refine ⟨fun _ => by simpa using hrun, fun hne => absurd hj hne⟩
          | k + 1 =>
            exfalso
            have ha : a ∈ (a :: rest).take (k + 1) := by simp [List.take_succ_cons]
            exact absurd (htake a ha) (by simp [ht])
        · intro t i h
          rw [hrun] at h
          simp only [Prod.mk.injEq, WaitOutcome.done.injEq] at h
          obtain ⟨-, rfl⟩ := h
          exact hj
      · have hrun : bulk2_wait_job (a :: rest) =
            (0, WaitOutcome.raised (Info.state a) a) := by
          simp [bulk2_wait_job, ht, hj]
        refine ⟨?_, ?_, ?_⟩
        · intro h
          exact absurd (h a (List.mem_cons_self a rest)) (by simp [ht])
        · intro k i hk htake hterm
          match k with
          | 0 =>
            simp only [List.getElem?_cons_zero, Option.some.injEq] at hk
            subst hk
            refine ⟨fun hc => absurd hc hj, fun _ => by simpa using hrun⟩
          | k + 1 =>
            exfalso
            have ha : a ∈ (a :: rest).take (k + 1) := by simp [List.take_succ_cons]
            exact absurd (htake a ha) (by simp [ht])
        · intro t i h
          rw [hrun] at h
          simp at h
    · have ht' : isTerminalState (Info.state a) = false := by
        simpa using ht
      have hrun : bulk2_wait_job (a :: rest) =
          (3 + (bulk2_wait_job rest).1, (bulk2_wait_job rest).2) := by
        simp [bulk2_wait_job, ht']
      refine ⟨?_, ?_, ?_⟩
      · intro h
        have hr := ih.1 (fun i hi => h i (List.mem_cons_of_mem a hi))
        rw [hrun, hr]
        simp only [List.length_cons]
        congr 1
        omega
      · intro k i hk htake hterm
        match k with
        | 0 =>
          simp only [List.getElem?_cons_zero, Option.some.injEq] at hk
          subst hk
          exact absurd hterm (by simp [ht'])
        | k + 1 =>
          have hk' : rest[k]? = some i := by simpa using hk
          have htake' : ∀ i' ∈ rest.take k, isTerminalState (Info.state i') = false := by
            intro i' hi'
            exact htake i' (by simp [List.take_succ_cons, hi'])
          have hrest := ih.2.1 k i hk' htake' hterm
          constructor
          · intro hc
            rw [hrun, hrest.1 hc]
            congr 1
            omega
          · intro hc
            rw [hrun, hrest.2 hc]
            congr 1
            omega
      · intro t i h
        rw [hrun] at h
        have h2 : (bulk2_wait_job rest).2 = WaitOutcome.done i := congrArg Prod.snd h
        exact ih.2.2 (bulk2_wait_job rest).1 i (by rw [← h2])

/-- Witness for C3: one non-terminal poll followed by a Failed state gives a
raised error carrying the full payload after a single 3-unit sleep. -/
theorem bulk2_wait_job_terminal_states_witness :
    ([[("state", "InProgress")], [("state", "Failed"), ("errorMessage", "boom")]] :
        List Info)[1]? = some [("state", "Failed"), ("errorMessage", "boom")] ∧
    bulk2_wait_job [[("state", "InProgress")], [("state", "Failed"), ("errorMessage", "boom")]] =
      (3 * 1, WaitOutcome.raised (some "Failed")
        [("state", "Failed"), ("errorMessage", "boom")]) := by
  refine ⟨by decide, ?_⟩
  have h := (bulk2_wait_job_terminal_states
      [[("state", "InProgress")], [("state", "Failed"), ("errorMessage", "boom")]]).2.1
      1 [("state", "Failed"), ("errorMessage", "boom")] (by decide) (by decide) (by decide)
  exact h.2 (by decide)

theorem paramLocator_of_continue (loc : Option String)
    (h : locatorContinue loc = true) : paramLocator loc = loc := by
  match loc with
  | none => simp [locatorContinue] at h
  | some s =>
    simp only [locatorContinue, Bool.not_eq_true', Bool.or_eq_false_iff] at h
    simp [paramLocator, h.1]

theorem fetchPages_fst_head (parse : String → DataFrame) (loc : Option String)
    (rs : List BulkResponse) :
    ((fetchPages parse loc rs).1)[0]? = some (paramLocator loc) := by
  match rs with
  | [] => simp [fetchPages]
  | r :: rest =>
    by_cases h : locatorContinue r.sforceLocator = true
    · simp [fetchPages, h]
    · simp [fetchPages, h]

theorem fetchPages_fst_length (parse : String → DataFrame) (loc : Option String)
    (rs : List BulkResponse) :
    (fetchPages parse loc rs).1.length = leadCont rs + 1 := by
  induction rs generalizing loc with
  | nil => simp [fetchPages, leadCont]
  | cons r rest ih =>
    by_cases h : locatorContinue r.sforceLocator = true
    · simp [fetchPages, leadCont, h, ih]
    · simp [fetchPages, leadCont, h]

theorem fetchPages_echo (parse : String → DataFrame) (loc : Option String)
    (rs : List BulkResponse) (k : Nat) (r : BulkResponse) (hk : rs[k]? = some r)
    (hlt : k + 1 < (fetchPages parse loc rs).1.length) :
    (fetchPages parse loc rs).1[k + 1]? = some r.sforceLocator ∧
      locatorContinue r.sforceLocator = true := by
  induction rs generalizing loc k with
  | nil => simp at hk
  | cons a rest ih =>
    by_cases h : locatorContinue a.sforceLocator = true
    · match k with
      | 0 =>
        simp only [List.getElem?_cons_zero, Option.some.injEq] at hk
        subst hk
        refine ⟨?_, h⟩
        simp only [fetchPages, h, if_pos]
        rw [List.getElem?_cons_succ, fetchPages_fst_head, paramLocator_of_continue _ h]
      | k + 1 =>
        have hk' : rest[k]? = some r := by simpa using hk
        have hlt' : k + 1 < (fetchPages parse a.sforceLocator rest).1.length := by
          revert hlt
          simp [fetchPages, h]
        have := ih a.sforceLocator k hk' hlt'
        refine ⟨?_, this.2⟩
        simp only [fetchPages, h, if_pos]
        rw [List.getElem?_cons_succ]
        exact this.1
    · exfalso
      have h1 : (fetchPages parse loc (a :: rest)).1.length = 1 := by
        simp [fetchPages, h]
      omega

theorem lt_leadCont_continue (rs : List BulkResponse) (k : Nat)
    (hk : k < leadCont rs) (r : BulkResponse) (h : rs[k]? = some r) :
    locatorContinue r.sforceLocator = true := by
  induction rs generalizing k with
  | nil => simp [leadCont] at hk
  | cons a rest ih =>
    by_cases hc : locatorContinue a.sforceLocator = true
    · match k with
      | 0 =>
        simp only [List.getElem?_cons_zero, Option.some.injEq] at h
        subst h
        exact hc
      | k + 1 =>
        have hk' : k < leadCont rest := by
          simp only [leadCont, hc, if_true] at hk
          omega
        exact ih k hk' (by simpa using h)
    · simp [leadCont, hc] at hk

theorem leadCont_stop (rs : List BulkResponse) (r : BulkResponse)
    (h : rs[leadCont rs]? = some r) : locatorContinue r.sforceLocator = false := by
  induction rs with
  | nil => simp at h
  | cons a rest ih =>
    by_cases hc : locatorContinue a.sforceLocator = true
    · have h0 : leadCont (a :: rest) = leadCont rest + 1 := by simp [leadCont, hc]
      rw [h0, List.getElem?_cons_succ] at h
      exact ih h
    · have h0 : leadCont (a :: rest) = 0 := by simp [leadCont, hc]
      rw [h0] at h
      simp only [List.getElem?_cons_zero, Option.some.injEq] at h
      subst h
      simpa using hc

theorem fetchPages_snd_eq (parse : String → DataFrame) (loc : Option String)
    (rs : List BulkResponse) :
    (fetchPages parse loc rs).2 =
      ((rs.take (leadCont rs + 1)).filter (fun r => !(pyStrip r.text == ""))).map
        (fun r => parse r.text) := by
  induction rs generalizing loc with
  | nil => simp [fetchPages, leadCont]
  | cons a rest ih =>
    by_cases h : locatorContinue a.sforceLocator = true
    · by_cases he : pyStrip a.text == ""
      · simp [fetchPages, h, he, leadCont, List.take_succ_cons, List.filter_cons, ih]
      · simp [fetchPages, h, he, leadCont, List.take_succ_cons, List.filter_cons, ih]
    · by_cases he : pyStrip a.text == ""
      · simp [fetchPages, h, he, leadCont, List.take_succ_cons, List.filter_cons]
      · simp [fetchPages, h, he, leadCont, List.take_succ_cons, List.filter_cons]

/-- C2: the pagination loop of `bulk2_fetch_results` issues exactly one more
request than there are leading responses with a continuing cursor; given that
request k was issued, request k+1 is issued iff response k carried a cursor
header that is present, non-empty, and not case-insensitively "null"; the
first non-continuing response ends the loop; and the continuing cursor is
echoed back as the locator parameter of the next request. -/
theorem bulk2_fetch_results_pagination (parse : String → DataFrame)
    (responses : List BulkResponse) :
    (fetchPages parse none responses).1.length = leadCont responses + 1 ∧
    (∀ (k : Nat) (r : BulkResponse), responses[k]? = some r →
      k < (fetchPages parse none responses).1.length →
      (k + 1 < (fetchPages parse none responses).1.length ↔
        locatorContinue r.sforceLocator = true)) ∧
    (∀ (k : Nat) (r : BulkResponse), responses[k]? = some r →
      k + 1 < (fetchPages parse none responses).1.length →
      (fetchPages parse none responses).1[k + 1]? = some r.sforceLocator) ∧
    (∀ r : BulkResponse, responses[leadCont responses]? = some r →
      locatorContinue r.sforceLocator = false) := by
  refine ⟨fetchPages_fst_length parse none responses, ?_, ?_, ?_⟩
  · intro k r hk hreq
    rw [fetchPages_fst_length] at hreq ⊢
    constructor
    · intro hlt
      exact lt_leadCont_continue responses k (by omega) r hk
    · intro hcont
      rcases Nat.lt_or_ge k (leadCont responses) with hlt | hge
      · omega
      · exfalso
        have hkeq : k = leadCont responses := by omega
        subst hkeq
        have := leadCont_stop responses r hk
        rw [this] at hcont
        exact Bool.false_ne_true hcont
  · intro k r hk hlt
    exact (fetchPages_echo parse none responses k r hk hlt).1
  · intro r h
    exact leadCont_stop responses r h

/-- Witness for C2: a first response with body and cursor "LOC1" followed by a
response with cursor "null" gives two requests, the second echoing "LOC1". -/
theorem bulk2_fetch_results_pagination_witness :
    (([⟨"data", some "LOC1"⟩, ⟨"", some "null"⟩] : List BulkResponse))[0]? =
      some ⟨"data", some "LOC1"⟩ ∧
    0 + 1 < (fetchPages (fun _ => DataFrame.empty) none
      [⟨"data", some "LOC1"⟩, ⟨"", some "null"⟩]).1.length ∧
    (fetchPages (fun _ => DataFrame.empty) none
        [⟨"data", some "LOC1"⟩, ⟨"", some "null"⟩]).1.length =
      leadCont [⟨"data", some "LOC1"⟩, ⟨"", some "null"⟩] + 1 ∧
    (fetchPages (fun _ => DataFrame.empty) none
        [⟨"data", some "LOC1"⟩, ⟨"", some "null"⟩]).1[0 + 1]? = some (some "LOC1") := by
  have h := bulk2_fetch_results_pagination (fun _ => DataFrame.empty)
    [⟨"data", some "LOC1"⟩, ⟨"", some "null"⟩]
  have hlt : 0 + 1 < (fetchPages (fun _ => DataFrame.empty) none
      [⟨"data", some "LOC1"⟩, ⟨"", some "null"⟩]).1.length := by
    rw [h.1]
    decide
  exact ⟨by decide, hlt, h.1,
    h.2.2.1 0 ⟨"data", some "LOC1"⟩ (by decide) hlt⟩

/-- C8: `bulk2_fetch_results` returns the concatenation, in arrival order, of
all pages whose body was non-empty after parsing, and the empty table, not an
error, when zero pages contained data. -/
theorem bulk2_fetch_results_concat (parse : String → DataFrame)
    (responses : List BulkResponse) :
    (bulk2_fetch_results parse responses).rows =
      (((responses.take (leadCont responses + 1)).filter
          (fun r => !(pyStrip r.text == ""))).map (fun r => (parse r.text).rows)).flatten ∧
    ((∀ r ∈ responses.take (leadCont responses + 1), pyStrip r.text = "") →
      bulk2_fetch_results parse responses = DataFrame.empty) := by
  have hsnd := fetchPages_snd_eq parse none responses
  constructor
  · by_cases hemp : (fetchPages parse none responses).2.isEmpty
    · have hr : bulk2_fetch_results parse responses = DataFrame.empty := by
        simp only [bulk2_fetch_results, hemp, if_pos]
      have hnil : ((responses.take (leadCont responses + 1)).filter
          (fun r => !(pyStrip r.text == ""))) = [] := by
        rw [List.isEmpty_iff] at hemp
        rw [hsnd] at hemp
        exact List.map_eq_nil_iff.mp hemp
      rw [hr, hnil]
      simp [DataFrame.empty]
    · have hr : bulk2_fetch_results parse responses =
          DataFrame.concatFrames (fetchPages parse none responses).2 := by
        simp only [bulk2_fetch_results]
        rw [if_neg hemp]
      rw [hr, hsnd]
      simp only [DataFrame.concatFrames, List.map_map]
      rfl
  · intro hall
    have hnil : ((responses.take (leadCont responses + 1)).filter
        (fun r => !(pyStrip r.text == ""))) = [] := by
      apply List.filter_eq_nil_iff.mpr
      intro r hr
      simp [hall r hr]
    have hemp : (fetchPages parse none responses).2 = [] := by
      rw [hsnd, hnil]
      rfl
    simp [bulk2_fetch_results, hemp]

/-- Witness for C8: a single consumed page with an all-whitespace body yields
the empty DataFrame. -/
theorem bulk2_fetch_results_concat_witness :
    (∀ r ∈ ([⟨"", none⟩] : List BulkResponse).take
        (leadCont [⟨"", none⟩] + 1), pyStrip r.text = "") ∧
    bulk2_fetch_results (fun _ => DataFrame.empty) [⟨"", none⟩] = DataFrame.empty :=
  ⟨by decide,
    (bulk2_fetch_results_concat (fun _ => DataFrame.empty) [⟨"", none⟩]).2 (by decide)⟩

theorem dropDupRowsAux_sublist (key : String) (seen : List (Option Cell))
    (l : List Row) : (dropDupRowsAux key seen l).Sublist l := by
  induction l generalizing seen with
  | nil => simp [dropDupRowsAux]
  | cons r rest ih =>
    by_cases h : r.get key ∈ seen
    · simp only [dropDupRowsAux, if_pos h]
      exact (ih seen).trans (List.sublist_cons_self r rest)
    · simp only [dropDupRowsAux, if_neg h]
      exact List.Sublist.cons₂ r (ih _)

theorem mem_dropDupRowsAux_not_seen (key : String) (seen : List (Option Cell))
    (l : List Row) (r : Row) (hr : r ∈ dropDupRowsAux key seen l) :
    r.get key ∉ seen := by
  induction l generalizing seen with
  | nil => simp [dropDupRowsAux] at hr
  | cons a rest ih =>
    by_cases h : a.get key ∈ seen
    · exact ih seen (by simpa [dropDupRowsAux, h] using hr)
    · rcases List.mem_cons.mp (by simpa [dropDupRowsAux, if_neg h] using hr) with heq | hr'
      · subst heq
        exact h
      · have hn := ih _ hr'
        intro hmem
        exact hn (List.mem_cons_of_mem _ hmem)

theorem dropDupRowsAux_countP_le_one (key : String) (k : Option Cell)
    (seen : List (Option Cell)) (l : List Row) :
    (dropDupRowsAux key seen l).countP (fun r => r.get key == k) ≤ 1 := by
  induction l generalizing seen with
  | nil => simp [dropDupRowsAux]
  | cons a rest ih =>
    by_cases h : a.get key ∈ seen
    · simpa [dropDupRowsAux, h] using ih seen
    · simp only [dropDupRowsAux, if_neg h, List.countP_cons]
      by_cases hm : (a.get key == k) = true
      · have h0 : (dropDupRowsAux key (a.get key :: seen) rest).countP
            (fun r => r.get key == k) = 0 := by
          apply List.countP_eq_zero.mpr
          intro x hx
          have hns := mem_dropDupRowsAux_not_seen key _ rest x hx
          have hxk : x.get key ≠ a.get key :=
            fun hc => hns (hc ▸ List.mem_cons_self _ _)
          have hak : a.get key = k := eq_of_beq hm
          have hxk' : x.get key ≠ k := by
            rw [← hak]
            exact hxk
          simp [hxk']
        rw [h0, hm]
        simp
      · have hm' : (a.get key == k) = false := by simpa using hm
        rw [hm']
        simpa using ih (a.get key :: seen)

theorem mem_dropDupRowsAux_find? (key : String) (seen : List (Option Cell))
    (l : List Row) (r : Row) (hr : r ∈ dropDupRowsAux key seen l) :
    l.find? (fun x => x.get key == r.get key) = some r := by
  induction l generalizing seen with
  | nil => simp [dropDupRowsAux] at hr
  | cons a rest ih =>
    by_cases h : a.get key ∈ seen
    · have hr' : r ∈ dropDupRowsAux key seen rest := by
        simpa [dropDupRowsAux, h] using hr
      have hns := mem_dropDupRowsAux_not_seen key seen rest r hr'
      have hne : (a.get key == r.get key) = false :=
        beq_eq_false_iff_ne.mpr (fun hc => hns (hc ▸ h))
      rw [List.find?_cons_of_neg _ (by simp [hne])]
      exact ih seen hr'
    · rcases List.mem_cons.mp (by simpa [dropDupRowsAux, if_neg h] using hr) with heq | hr'
      · subst heq
        rw [List.find?_cons_of_pos _ (by simp)]
      · have hns := mem_dropDupRowsAux_not_seen key _ rest r hr'
        have hne : (a.get key == r.get key) = false :=
          beq_eq_false_iff_ne.mpr
            (fun hc => hns (hc ▸ List.mem_cons_self _ _))
        rw [List.find?_cons_of_neg _ (by simp [hne])]
        exact ih _ hr'

theorem find?_filter_of_imp {α : Type} (l : List α) (p q : α → Bool)
    (h : ∀ a, p a = true → q a = true) :
    (l.filter q).find? p = l.find? p := by
  induction l with
  | nil => rfl
  | cons a rest ih =>
    by_cases hq : q a = true
    · rw [List.filter_cons_of_pos hq]
      by_cases hp : p a = true
      · rw [List.find?_cons_of_pos _ hp, List.find?_cons_of_pos _ hp]
      · rw [List.find?_cons_of_neg _ (by simpa using hp),
          List.find?_cons_of_neg _ (by simpa using hp)]
        exact ih
    · have hp : p a = false := by
        rcases Bool.eq_false_or_eq_true (p a) with h0 | h0
        · exact absurd (h a h0) hq
        · exact h0
      rw [List.filter_cons_of_neg (by simpa using hq),
        List.find?_cons_of_neg _ (by simp [hp])]
      exact ih

/-- C6: after filtering the metadata table to the identifier set and dropping
duplicate identifiers, there is at most one row per identifier, every kept
row's identifier belongs to the identifier set, and each kept row is the first
occurrence of its identifier in the source table's stable row order. -/
theorem filter_and_dedupe_files_invariants (df : DataFrame) (docid_set : Finset String) :
    (∀ k : Option Cell,
      ((filter_and_dedupe_files df docid_set).rows.countP
        (fun r => r.get "ContentDocumentId" == k)) ≤ 1) ∧
    (∀ r ∈ (filter_and_dedupe_files df docid_set).rows,
      ∃ v, (r.get "ContentDocumentId").join = some v ∧ v ∈ docid_set) ∧
    (∀ r ∈ (filter_and_dedupe_files df docid_set).rows,
      df.rows.find? (fun x => x.get "ContentDocumentId" == r.get "ContentDocumentId") =
        some r) := by
  refine ⟨?_, ?_, ?_⟩
  · intro k
    exact dropDupRowsAux_countP_le_one "ContentDocumentId" k [] _
  · intro r hr
    have hmem : r ∈ df.rows.filter
        (fun x => cellIsin ((x.get "ContentDocumentId").join) docid_set) :=
      (dropDupRowsAux_sublist _ _ _).subset hr
    have hq : cellIsin ((r.get "ContentDocumentId").join) docid_set = true :=
      (List.mem_filter.mp hmem).2
    cases hj : (r.get "ContentDocumentId").join with
    | none =>
      rw [hj] at hq
      simp [cellIsin] at hq
    | some v =>
      rw [hj] at hq
      refine ⟨v, rfl, ?_⟩
      simpa [cellIsin] using hq
  · intro r hr
    have hfind := mem_dropDupRowsAux_find? "ContentDocumentId" [] _ r hr
    have hmem : r ∈ df.rows.filter
        (fun x => cellIsin ((x.get "ContentDocumentId").join) docid_set) :=
      (dropDupRowsAux_sublist _ _ _).subset hr
    have hq : cellIsin ((r.get "ContentDocumentId").join) docid_set = true :=
      (List.mem_filter.mp hmem).2
    have himp : ∀ x : Row,
        (x.get "ContentDocumentId" == r.get "ContentDocumentId") = true →
        cellIsin ((x.get "ContentDocumentId").join) docid_set = true := by
      intro x hx
      rw [eq_of_beq hx]
      exact hq
    rw [← find?_filter_of_imp df.rows _ _ himp]
    exact hfind

/-- Witness for C6: with identifier set containing only DOC1, the duplicate
DOC1 row and the DOC9 row are dropped, and the kept row is the first DOC1
occurrence of the source table. -/
theorem filter_and_dedupe_files_invariants_witness :
    (⟨[("ContentDocumentId", some "DOC1"), ("Title", some "A")]⟩ : Row) ∈
      (filter_and_dedupe_files
        (⟨["ContentDocumentId", "Title"],
          [⟨[("ContentDocumentId", some "DOC1"), ("Title", some "A")]⟩,
           ⟨[("ContentDocumentId", some "DOC1"), ("Title", some "B")]⟩,
           ⟨[("ContentDocumentId", some "DOC9"), ("Title", some "C")]⟩]⟩ : DataFrame)
        ({"DOC1"} : Finset String)).rows ∧
    (⟨["ContentDocumentId", "Title"],
      [⟨[("ContentDocumentId", some "DOC1"), ("Title", some "A")]⟩,
       ⟨[("ContentDocumentId", some "DOC1"), ("Title", some "B")]⟩,
       ⟨[("ContentDocumentId", some "DOC9"), ("Title", some "C")]⟩]⟩ :
        DataFrame).rows.find?
      (fun x => x.get "ContentDocumentId" ==
        (⟨[("ContentDocumentId", some "DOC1"), ("Title", some "A")]⟩ : Row).get
          "ContentDocumentId") =
      some ⟨[("ContentDocumentId", some "DOC1"), ("Title", some "A")]⟩ :=
  ⟨by decide,
    (filter_and_dedupe_files_invariants
      (⟨["ContentDocumentId", "Title"],
        [⟨[("ContentDocumentId", some "DOC1"), ("Title", some "A")]⟩,
         ⟨[("ContentDocumentId", some "DOC1"), ("Title", some "B")]⟩,
         ⟨[("ContentDocumentId", some "DOC9"), ("Title", some "C")]⟩]⟩ : DataFrame)
      ({"DOC1"} : Finset String)).2.2
      ⟨[("ContentDocumentId", some "DOC1"), ("Title", some "A")]⟩ (by decide)⟩

/-- C1: the left join of `merge_site_tracker_and_files` has exactly one output
row per local row whenever the metadata table has at most one row per
identifier cell. -/
theorem merge_preserves_local_row_count (L M : DataFrame)
    (docid_col instance_url : String)
    (hM : ∀ k : Option Cell,
      M.rows.countP (fun r => r.get "ContentDocumentId" == k) ≤ 1) :
    (merge_site_tracker_and_files L M docid_col instance_url).rows.length =
      L.rows.length := by
  have hmerge : (pdMergeLeft L M docid_col "ContentDocumentId").rows.length =
      L.rows.length := by
    simp only [pdMergeLeft]
    rw [List.length_flatten, List.map_map]
    have hone : ∀ l ∈ L.rows,
        (List.length ∘ fun l => mergeRowGroup L.cols M.cols l
          (M.rows.filter (fun r => r.get "ContentDocumentId" == l.get docid_col))) l
          = (fun _ => 1) l := by
      intro l _
      simp only [Function.comp_apply, mergeRowGroup]
      by_cases he : (M.rows.filter
          (fun r => r.get "ContentDocumentId" == l.get docid_col)).isEmpty
      · simp [he]
      · have h2 := hM (l.get docid_col)
        rw [List.countP_eq_length_filter] at h2
        have h3 : (M.rows.filter
            (fun r => r.get "ContentDocumentId" == l.get docid_col)) ≠ [] := by
          simpa [List.isEmpty_iff] using he
        have h4 := List.length_pos.mpr h3
        have h5 : (M.rows.filter
            (fun r => r.get "ContentDocumentId" == l.get docid_col)).length = 1 := by
          omega
        simp [he, h5]
    rw [List.map_congr_left hone]
    simp
  by_cases hid : "Id" ∈ (pdMergeLeft L M docid_col "ContentDocumentId").cols
  · simp only [merge_site_tracker_and_files, if_pos hid, DataFrame.setCol,
      List.length_map]
    exact hmerge
  · simp only [merge_site_tracker_and_files, if_neg hid]
    exact hmerge

/-- Witness for C1: two local rows referencing one metadata row merge into
exactly two rows. -/
theorem merge_preserves_local_row_count_witness :
    (∀ k : Option Cell,
      (⟨["ContentDocumentId", "Title"],
        [⟨[("ContentDocumentId", some "DOC1"), ("Title", some "File 1")]⟩]⟩ :
          DataFrame).rows.countP (fun r => r.get "ContentDocumentId" == k) ≤ 1) ∧
    (merge_site_tracker_and_files
      (⟨["Id", "DocId"],
        [⟨[("Id", some "ATT1"), ("DocId", some "DOC1")]⟩,
         ⟨[("Id", some "ATT2"), ("DocId", some "DOC2")]⟩]⟩ : DataFrame)
      (⟨["ContentDocumentId", "Title"],
        [⟨[("ContentDocumentId", some "DOC1"), ("Title", some "File 1")]⟩]⟩ : DataFrame)
      "DocId" "http://example.com").rows.length =
    (⟨["Id", "DocId"],
      [⟨[("Id", some "ATT1"), ("DocId", some "DOC1")]⟩,
       ⟨[("Id", some "ATT2"), ("DocId", some "DOC2")]⟩]⟩ : DataFrame).rows.length :=
  ⟨fun k => le_trans (List.countP_le_length _) (by decide),
   merge_preserves_local_row_count _ _ "DocId" "http://example.com"
     (fun k => le_trans (List.countP_le_length _) (by decide))⟩

/-- C7: when the local table has an `Id` column, the merged result gains a
`SiteTrackerAttachmentUrl` column holding the attachment viewer URL built from
each row's `Id`, and a true-missing value (not a "nan" string) on rows whose
`Id` is missing. -/
theorem merge_adds_attachment_url (L M : DataFrame) (docid_col instance_url : String)
    (hId : "Id" ∈ L.cols) :
    "SiteTrackerAttachmentUrl" ∈
      (merge_site_tracker_and_files L M docid_col instance_url).cols ∧
    ∀ r ∈ (merge_site_tracker_and_files L M docid_col instance_url).rows,
      (∀ a : String, r.get "Id" = some (some a) →
        r.get "SiteTrackerAttachmentUrl" =
          some (some (instance_url ++ "/lightning/r/sitetracker__Attachment__c/" ++
            a ++ "/view"))) ∧
      (r.get "Id" = some none → r.get "SiteTrackerAttachmentUrl" = some none) := by
  have hIdm : "Id" ∈ (pdMergeLeft L M docid_col "ContentDocumentId").cols :=
    List.mem_append_left _ hId
  have hdef : merge_site_tracker_and_files L M docid_col instance_url =
      (pdMergeLeft L M docid_col "ContentDocumentId").setCol "SiteTrackerAttachmentUrl"
        (fun r =>
          match (r.get "Id").join with
          | some attachment_id =>
              some (instance_url ++ "/lightning/r/sitetracker__Attachment__c/" ++
                attachment_id ++ "/view")
          | none => none) := by
    simp only [merge_site_tracker_and_files, if_pos hIdm]
  constructor
  · rw [hdef]
    by_cases h : "SiteTrackerAttachmentUrl" ∈
        (pdMergeLeft L M docid_col "ContentDocumentId").cols
    · simp only [DataFrame.setCol]
      rw [if_pos h]
      exact h
    · simp only [DataFrame.setCol]
      rw [if_neg h]
      exact List.mem_append_right _ (List.mem_singleton.mpr rfl)
  · intro r hr
    rw [hdef] at hr
    simp only [DataFrame.setCol, List.mem_map] at hr
    obtain ⟨m, _, rfl⟩ := hr
    have hne : ("Id" : String) ≠ "SiteTrackerAttachmentUrl" := by decide
    constructor
    · intro a ha
      rw [Row.get_set_ne _ _ _ _ hne] at ha
      rw [Row.get_set_self]
      have hj : (m.get "Id").join = some a := by
        rw [ha]
        rfl
      rw [hj]
    · intro ha
      rw [Row.get_set_ne _ _ _ _ hne] at ha
      rw [Row.get_set_self]
      have hj : (m.get "Id").join = none := by
        rw [ha]
        rfl
      rw [hj]

/-- Witness for C7: a local row with Id ATT1 merged against matching metadata
carries the expected attachment viewer URL column. -/
theorem merge_adds_attachment_url_witness :
    "Id" ∈ (⟨["Id", "DocId"],
      [⟨[("Id", some "ATT1"), ("DocId", some "DOC1")]⟩]⟩ : DataFrame).cols ∧
    ("SiteTrackerAttachmentUrl" ∈
      (merge_site_tracker_and_files
        (⟨["Id", "DocId"],
          [⟨[("Id", some "ATT1"), ("DocId", some "DOC1")]⟩]⟩ : DataFrame)
        (⟨["ContentDocumentId", "Title"],
          [⟨[("ContentDocumentId", some "DOC1"), ("Title", some "File 1")]⟩]⟩ :
            DataFrame)
        "DocId" "http://example.com").cols ∧
    ∀ r ∈ (merge_site_tracker_and_files
        (⟨["Id", "DocId"],
          [⟨[("Id", some "ATT1"), ("DocId", some "DOC1")]⟩]⟩ : DataFrame)
        (⟨["ContentDocumentId", "Title"],
          [⟨[("ContentDocumentId", some "DOC1"), ("Title", some "File 1")]⟩]⟩ :
            DataFrame)
        "DocId" "http://example.com").rows,
      (∀ a : String, r.get "Id" = some (some a) →
        r.get "SiteTrackerAttachmentUrl" =
          some (some ("http://example.com" ++ "/lightning/r/sitetracker__Attachment__c/" ++
            a ++ "/view"))) ∧
      (r.get "Id" = some none → r.get "SiteTrackerAttachmentUrl" = some none)) :=
  ⟨by decide, merge_adds_attachment_url _ _ "DocId" "http://example.com" (by decide)⟩

end FileDataExporter
